import Mathlib

/-!
Verification development for the uvp-v2 permission-catalog library.

The TypeScript source (a Next.js dashboard data module) is shallowly
embedded below: the permission catalog is a Lean list of records, the
pure helper functions are Lean functions, and JavaScript runtime
behaviours that matter (falsiness of `undefined` and of the empty
string, insertion-ordered object keys and Sets, `Math.round`
half-up rounding) are modelled explicitly.  JavaScript numbers are IEEE
doubles; every numeric value occurring in these functions is a small
integer, or a small integer times 0.2 or 0.3, or a ratio of list
lengths, and for these the double computations round to the same
integers as exact rational arithmetic (the exact values lie at distance
at least 1/10 from every rounding boundary while the accumulated double
error is far smaller), so arithmetic is modelled over the rationals.

The displayName field of a Permission (a derived presentation string)
is omitted from the embedding: none of the operations verified here
reads it.
-/

namespace UVP

structure Permission where
  apiName : String
  description : String
  productCategory : String
  taskCategories : List String
  actions : String
  operationType : String
  riskLevel : String
  hasPII : Bool
  hasFinancialData : Bool
  hasPaymentCredentials : Bool
  roleAccess : List (String × String)
deriving DecidableEq, Repr, Inhabited

def permissions : List Permission := [
  { apiName := "account_admin_management_operations", description := "Administrative account operations (does not include team member management)",
    productCategory := "Account & Connect", taskCategories := ["Configure settings"],
    actions := "write", operationType := "Write", riskLevel := "Critical",
    hasPII := false, hasFinancialData := false, hasPaymentCredentials := false,
    roleAccess := [("super_admin", "write"), ("admin", "write"), ("developer", "write")] },
  { apiName := "account_operations", description := "Read access to base account details",
    productCategory := "Account & Connect", taskCategories := ["Configure settings", "Monitor platform"],
    actions := "read, write", operationType := "Read + Write", riskLevel := "Standard",
    hasPII := false, hasFinancialData := false, hasPaymentCredentials := false,
    roleAccess := [("super_admin", "write"), ("admin", "write"), ("view_only", "read"), ("support", "write"), ("support_associate", "write"), ("analyst", "read"), ("refund_analyst", "read"), ("sandbox_admin", "read")] },
  { apiName := "accounts_kyc_basic", description := "Read access to basic KYC fields",
    productCategory := "Account & Connect", taskCategories := ["Verify identity", "Handle customer issues"],
    actions := "read", operationType := "Read-only", riskLevel := "Standard",
    hasPII := true, hasFinancialData := false, hasPaymentCredentials := false,
    roleAccess := [("super_admin", "read"), ("admin", "read"), ("view_only", "read"), ("identity_analyst", "read")] },
  { apiName := "application_fee_operations", description := "Application fees for platforms",
    productCategory := "Account & Connect", taskCategories := ["Monitor platform", "Export & analyze data"],
    actions := "read, write", operationType := "Read + Write", riskLevel := "Standard",
    hasPII := false, hasFinancialData := true, hasPaymentCredentials := false,
    roleAccess := [("super_admin", "write"), ("admin", "write"), ("view_only", "read"), ("support", "write"), ("analyst", "write")] },
  { apiName := "connect_settings", description := "Manage Connect settings",
    productCategory := "Account & Connect", taskCategories := ["Configure settings", "Monitor platform"],
    actions := "write", operationType := "Write", riskLevel := "Elevated",
    hasPII := false, hasFinancialData := false, hasPaymentCredentials := false,
    roleAccess := [("super_admin", "write"), ("admin", "write"), ("support", "write"), ("support_associate", "write")] },
  { apiName := "connected_account_operations", description := "Connected accounts management",
    productCategory := "Account & Connect", taskCategories := ["Monitor platform", "Handle customer issues"],
    actions := "read, write", operationType := "Read + Write", riskLevel := "Standard",
    hasPII := true, hasFinancialData := false, hasPaymentCredentials := false,
    roleAccess := [("super_admin", "write"), ("admin", "write"), ("view_only", "read"), ("developer", "write"), ("support", "write"), ("support_associate", "write"), ("analyst", "read")] },
  { apiName := "embeddable_key_admin", description := "Embeddable keys admin",
    productCategory := "Account & Connect", taskCategories := ["Configure settings", "Develop & integrate"],
    actions := "write", operationType := "Write", riskLevel := "Elevated",
    hasPII := false, hasFinancialData := false, hasPaymentCredentials := true,
    roleAccess := [("super_admin", "write"), ("admin", "write")] },
  { apiName := "sandbox_creation", description := "Create sandbox organizations",
    productCategory := "Account & Connect", taskCategories := ["Develop & integrate"],
    actions := "write", operationType := "Write", riskLevel := "Standard",
    hasPII := false, hasFinancialData := false, hasPaymentCredentials := false,
    roleAccess := [("super_admin", "write"), ("admin", "write"), ("developer", "write"), ("sandbox_admin", "write")] },
  { apiName := "team_management", description := "Invite, remove, and change roles for team members",
    productCategory := "Account & Connect", taskCategories := ["Manage team access"],
    actions := "read, write", operationType := "Read + Write", riskLevel := "Elevated",
    hasPII := false, hasFinancialData := false, hasPaymentCredentials := false,
    roleAccess := [("super_admin", "write"), ("admin", "write"), ("view_only", "read"), ("iam_admin", "write")] },
  { apiName := "sensitive_resources", description := "API keys and secrets",
    productCategory := "Admin", taskCategories := ["Develop & integrate", "Configure settings"],
    actions := "read", operationType := "Read-only", riskLevel := "Standard",
    hasPII := false, hasFinancialData := false, hasPaymentCredentials := true,
    roleAccess := [("super_admin", "read"), ("admin", "read"), ("view_only", "read"), ("developer", "read")] },
  { apiName := "billing_operations", description := "Billing meters and bills",
    productCategory := "Billing & Subscriptions", taskCategories := ["Manage billing", "Export & analyze data"],
    actions := "read, write", operationType := "Read + Write", riskLevel := "Standard",
    hasPII := false, hasFinancialData := true, hasPaymentCredentials := false,
    roleAccess := [("super_admin", "write"), ("admin", "write"), ("view_only", "read"), ("developer", "write"), ("analyst", "write")] },
  { apiName := "billing_settings_operations", description := "Billing settings and profiles",
    productCategory := "Billing & Subscriptions", taskCategories := ["Configure settings", "Manage billing"],
    actions := "read, write", operationType := "Read + Write", riskLevel := "Elevated",
    hasPII := false, hasFinancialData := false, hasPaymentCredentials := false,
    roleAccess := [("super_admin", "write"), ("admin", "write"), ("view_only", "read"), ("developer", "write"), ("support", "write"), ("support_associate", "write"), ("analyst", "write"), ("refund_analyst", "read"), ("dispute_analyst", "read")] },
  { apiName := "credit_note_operations", description := "Manage credit notes",
    productCategory := "Billing & Subscriptions", taskCategories := ["Handle customer issues", "Manage billing"],
    actions := "read, write", operationType := "Read + Write", riskLevel := "Standard",
    hasPII := false, hasFinancialData := true, hasPaymentCredentials := false,
    roleAccess := [("super_admin", "write"), ("admin", "write"), ("view_only", "read"), ("developer", "write"), ("support", "write"), ("support_associate", "write"), ("analyst", "write"), ("refund_analyst", "write")] },
  { apiName := "invoice_operations", description := "Manage invoices and quotes",
    productCategory := "Billing & Subscriptions", taskCategories := ["Handle customer issues", "Manage billing", "Export & analyze data"],
    actions := "read, write", operationType := "Read + Write", riskLevel := "Standard",
    hasPII := false, hasFinancialData := true, hasPaymentCredentials := false,
    roleAccess := [("super_admin", "write"), ("admin", "write"), ("view_only", "read"), ("developer", "write"), ("support", "write"), ("support_associate", "write"), ("analyst", "write"), ("refund_analyst", "read"), ("dispute_analyst", "read")] },
  { apiName := "subscription_operations", description := "Manage subscriptions",
    productCategory := "Billing & Subscriptions", taskCategories := ["Handle customer issues", "Manage billing"],
    actions := "read, write", operationType := "Read + Write", riskLevel := "Standard",
    hasPII := false, hasFinancialData := true, hasPaymentCredentials := false,
    roleAccess := [("super_admin", "write"), ("admin", "write"), ("view_only", "read"), ("developer", "write"), ("support", "write"), ("support_associate", "write"), ("analyst", "write"), ("refund_analyst", "read"), ("dispute_analyst", "read")] },
  { apiName := "capital_operations", description := "Capital for Platforms",
    productCategory := "Capital & Treasury", taskCategories := ["Monitor financials", "Export & analyze data"],
    actions := "read, write", operationType := "Read + Write", riskLevel := "Standard",
    hasPII := false, hasFinancialData := true, hasPaymentCredentials := false,
    roleAccess := [("super_admin", "write"), ("admin", "write"), ("view_only", "read"), ("developer", "write"), ("analyst", "write")] },
  { apiName := "treasury_operations", description := "Treasury financial accounts",
    productCategory := "Capital & Treasury", taskCategories := ["Monitor financials", "Export & analyze data"],
    actions := "read, write", operationType := "Read + Write", riskLevel := "Standard",
    hasPII := false, hasFinancialData := true, hasPaymentCredentials := false,
    roleAccess := [("super_admin", "write"), ("admin", "write"), ("view_only", "read"), ("analyst", "read")] },
  { apiName := "identity_verification_operations", description := "Identity verification",
    productCategory := "Compliance & Identity", taskCategories := ["Verify identity", "Handle customer issues"],
    actions := "read, write", operationType := "Read + Write", riskLevel := "Standard",
    hasPII := true, hasFinancialData := false, hasPaymentCredentials := false,
    roleAccess := [("super_admin", "write"), ("admin", "write"), ("view_only", "read"), ("developer", "write"), ("analyst", "write"), ("identity_analyst", "write")] },
  { apiName := "climate_operations", description := "Climate orders",
    productCategory := "Crypto & Climate", taskCategories := ["Process transactions", "Configure settings"],
    actions := "read, write", operationType := "Read + Write", riskLevel := "Standard",
    hasPII := false, hasFinancialData := false, hasPaymentCredentials := false,
    roleAccess := [("super_admin", "write"), ("admin", "write"), ("view_only", "read"), ("developer", "write"), ("analyst", "write")] },
  { apiName := "crypto_operations", description := "Crypto financial accounts",
    productCategory := "Crypto & Climate", taskCategories := ["Process transactions"],
    actions := "read, write", operationType := "Read + Write", riskLevel := "Standard",
    hasPII := false, hasFinancialData := false, hasPaymentCredentials := false,
    roleAccess := [("super_admin", "write"), ("admin", "write"), ("view_only", "read"), ("developer", "write"), ("analyst", "write")] },
  { apiName := "customer_operations", description := "Manage customer profiles",
    productCategory := "Customers", taskCategories := ["Handle customer issues", "Export & analyze data"],
    actions := "read, write", operationType := "Read + Write", riskLevel := "Standard",
    hasPII := true, hasFinancialData := false, hasPaymentCredentials := false,
    roleAccess := [("super_admin", "write"), ("admin", "write"), ("view_only", "read"), ("developer", "write"), ("support", "write"), ("support_associate", "write"), ("analyst", "write"), ("refund_analyst", "read"), ("dispute_analyst", "read")] },
  { apiName := "customer_portal_operations", description := "Create customer portals",
    productCategory := "Customers", taskCategories := ["Configure settings", "Handle customer issues"],
    actions := "write", operationType := "Write", riskLevel := "Standard",
    hasPII := false, hasFinancialData := false, hasPaymentCredentials := false,
    roleAccess := [("super_admin", "write"), ("admin", "write"), ("analyst", "write")] },
  { apiName := "dispute_operations", description := "Manage disputes",
    productCategory := "Disputes & Fraud Prevention", taskCategories := ["Handle customer issues", "Manage disputes & fraud"],
    actions := "read, write", operationType := "Read + Write", riskLevel := "Standard",
    hasPII := false, hasFinancialData := false, hasPaymentCredentials := false,
    roleAccess := [("super_admin", "write"), ("admin", "write"), ("view_only", "read"), ("developer", "write"), ("support", "write"), ("support_associate", "write"), ("analyst", "write"), ("refund_analyst", "read"), ("dispute_analyst", "write")] },
  { apiName := "radar_operations", description := "Configure Radar fraud rules",
    productCategory := "Disputes & Fraud Prevention", taskCategories := ["Configure settings", "Manage disputes & fraud"],
    actions := "read, write", operationType := "Read + Write", riskLevel := "Standard",
    hasPII := false, hasFinancialData := false, hasPaymentCredentials := false,
    roleAccess := [("super_admin", "write"), ("admin", "write"), ("view_only", "read"), ("developer", "write"), ("support", "read"), ("support_associate", "read"), ("analyst", "read"), ("refund_analyst", "read")] },
  { apiName := "review_operations", description := "Action fraud reviews",
    productCategory := "Disputes & Fraud Prevention", taskCategories := ["Handle customer issues", "Manage disputes & fraud"],
    actions := "write", operationType := "Write", riskLevel := "Standard",
    hasPII := false, hasFinancialData := false, hasPaymentCredentials := false,
    roleAccess := [("super_admin", "write"), ("admin", "write"), ("support", "write"), ("support_associate", "write"), ("analyst", "write")] },
  { apiName := "balance_operations", description := "View account balances",
    productCategory := "Financial Operations", taskCategories := ["Monitor financials", "Export & analyze data"],
    actions := "read", operationType := "Read-only", riskLevel := "Standard",
    hasPII := false, hasFinancialData := true, hasPaymentCredentials := false,
    roleAccess := [("super_admin", "read"), ("admin", "read"), ("view_only", "read"), ("support", "read"), ("support_associate", "read"), ("analyst", "read"), ("refund_analyst", "read"), ("dispute_analyst", "read")] },
  { apiName := "balance_transfer_operations", description := "Transfer balances (high risk)",
    productCategory := "Financial Operations", taskCategories := ["Transfer funds"],
    actions := "write", operationType := "Write", riskLevel := "Critical",
    hasPII := false, hasFinancialData := true, hasPaymentCredentials := false,
    roleAccess := [("super_admin", "write"), ("admin", "write"), ("analyst", "write")] },
  { apiName := "payout_operations", description := "Manage payouts",
    productCategory := "Financial Operations", taskCategories := ["Transfer funds", "Monitor financials"],
    actions := "read, write", operationType := "Read + Write", riskLevel := "Standard",
    hasPII := false, hasFinancialData := true, hasPaymentCredentials := false,
    roleAccess := [("super_admin", "write"), ("admin", "write"), ("view_only", "read"), ("analyst", "write")] },
  { apiName := "transfer_operations", description := "Transfer operations",
    productCategory := "Financial Operations", taskCategories := ["Transfer funds", "Monitor financials"],
    actions := "read, write", operationType := "Read + Write", riskLevel := "Standard",
    hasPII := false, hasFinancialData := true, hasPaymentCredentials := false,
    roleAccess := [("super_admin", "write"), ("admin", "write"), ("view_only", "read"), ("analyst", "write")] },
  { apiName := "data_export_operations", description := "Export bulk data",
    productCategory := "Integrations & Data", taskCategories := ["Export & analyze data"],
    actions := "read", operationType := "Read-only", riskLevel := "Standard",
    hasPII := true, hasFinancialData := true, hasPaymentCredentials := false,
    roleAccess := [("super_admin", "read"), ("admin", "read"), ("view_only", "read"), ("developer", "read"), ("analyst", "read")] },
  { apiName := "dev_integration", description := "Development tools",
    productCategory := "Integrations & Data", taskCategories := ["Develop & integrate"],
    actions := "read, write", operationType := "Read + Write", riskLevel := "Standard",
    hasPII := false, hasFinancialData := false, hasPaymentCredentials := false,
    roleAccess := [("super_admin", "write"), ("admin", "write"), ("view_only", "read"), ("developer", "write"), ("analyst", "write")] },
  { apiName := "reporting_operations", description := "Run and access reports",
    productCategory := "Integrations & Data", taskCategories := ["Export & analyze data", "Monitor financials"],
    actions := "read, write", operationType := "Read + Write", riskLevel := "Standard",
    hasPII := false, hasFinancialData := true, hasPaymentCredentials := false,
    roleAccess := [("super_admin", "write"), ("admin", "write"), ("view_only", "read, write"), ("developer", "write"), ("support", "write"), ("support_associate", "write"), ("analyst", "write"), ("refund_analyst", "read")] },
  { apiName := "stripe_apps_development", description := "Build Stripe Apps",
    productCategory := "Integrations & Data", taskCategories := ["Develop & integrate"],
    actions := "read, write", operationType := "Read + Write", riskLevel := "Standard",
    hasPII := false, hasFinancialData := false, hasPaymentCredentials := false,
    roleAccess := [("super_admin", "write"), ("admin", "write"), ("view_only", "read"), ("developer", "write"), ("analyst", "write")] },
  { apiName := "issuing_card_operations", description := "Manage issuing cards",
    productCategory := "Issuing & Cards", taskCategories := ["Handle customer issues", "Manage cards"],
    actions := "read, write", operationType := "Read + Write", riskLevel := "Standard",
    hasPII := false, hasFinancialData := false, hasPaymentCredentials := true,
    roleAccess := [("super_admin", "write"), ("admin", "write"), ("view_only", "read"), ("support", "write"), ("support_associate", "read, write"), ("analyst", "write"), ("issuing_support_agent", "write")] },
  { apiName := "charge", description := "Charge read access",
    productCategory := "Payments", taskCategories := ["Handle customer issues", "Export & analyze data"],
    actions := "read", operationType := "Read-only", riskLevel := "Standard",
    hasPII := false, hasFinancialData := false, hasPaymentCredentials := false,
    roleAccess := [("view_only", "read"), ("refund_analyst", "read"), ("dispute_analyst", "read")] },
  { apiName := "charge_operations", description := "Process charges and refunds",
    productCategory := "Payments", taskCategories := ["Handle customer issues", "Process transactions"],
    actions := "write", operationType := "Write", riskLevel := "Standard",
    hasPII := false, hasFinancialData := true, hasPaymentCredentials := false,
    roleAccess := [("super_admin", "write"), ("admin", "write"), ("developer", "write"), ("support", "write"), ("support_associate", "write"), ("analyst", "write")] },
  { apiName := "payment_intent", description := "Payment intent read",
    productCategory := "Payments", taskCategories := ["Handle customer issues", "Export & analyze data"],
    actions := "read", operationType := "Read-only", riskLevel := "Standard",
    hasPII := false, hasFinancialData := false, hasPaymentCredentials := false,
    roleAccess := [("view_only", "read"), ("refund_analyst", "read"), ("dispute_analyst", "read")] },
  { apiName := "payment_intent_operations", description := "Manage payment intents",
    productCategory := "Payments", taskCategories := ["Handle customer issues", "Process transactions"],
    actions := "write", operationType := "Write", riskLevel := "Standard",
    hasPII := false, hasFinancialData := false, hasPaymentCredentials := false,
    roleAccess := [("super_admin", "write"), ("admin", "write"), ("developer", "write"), ("support", "write"), ("support_associate", "write"), ("analyst", "write")] },
  { apiName := "payment_processing", description := "Manage payment methods",
    productCategory := "Payments", taskCategories := ["Process transactions", "Configure settings"],
    actions := "read, write", operationType := "Read + Write", riskLevel := "Standard",
    hasPII := false, hasFinancialData := false, hasPaymentCredentials := true,
    roleAccess := [("super_admin", "write"), ("admin", "write"), ("view_only", "read"), ("developer", "write"), ("support", "write"), ("support_associate", "write"), ("analyst", "write"), ("refund_analyst", "read"), ("dispute_analyst", "read")] },
  { apiName := "checkout_operations", description := "Manage checkout",
    productCategory := "Products & Orders", taskCategories := ["Process transactions", "Configure settings"],
    actions := "read, write", operationType := "Read + Write", riskLevel := "Standard",
    hasPII := false, hasFinancialData := false, hasPaymentCredentials := false,
    roleAccess := [("super_admin", "write"), ("admin", "write"), ("view_only", "read"), ("developer", "write"), ("support", "write"), ("support_associate", "read"), ("analyst", "write")] },
  { apiName := "order_operations", description := "Manage orders",
    productCategory := "Products & Orders", taskCategories := ["Handle customer issues", "Process transactions"],
    actions := "read, write", operationType := "Read + Write", riskLevel := "Standard",
    hasPII := false, hasFinancialData := false, hasPaymentCredentials := false,
    roleAccess := [("super_admin", "write"), ("admin", "write"), ("view_only", "read"), ("developer", "write"), ("support", "write"), ("support_associate", "write"), ("analyst", "write"), ("refund_analyst", "read"), ("dispute_analyst", "read")] },
  { apiName := "order_refund_operations", description := "Process order refunds",
    productCategory := "Products & Orders", taskCategories := ["Handle customer issues"],
    actions := "write", operationType := "Write", riskLevel := "Standard",
    hasPII := false, hasFinancialData := true, hasPaymentCredentials := false,
    roleAccess := [("super_admin", "write"), ("admin", "write"), ("analyst", "write"), ("refund_analyst", "write")] },
  { apiName := "product_operations", description := "Manage products and pricing",
    productCategory := "Products & Orders", taskCategories := ["Manage catalog", "Configure settings"],
    actions := "read, write", operationType := "Read + Write", riskLevel := "Standard",
    hasPII := false, hasFinancialData := false, hasPaymentCredentials := false,
    roleAccess := [("super_admin", "write"), ("admin", "write"), ("view_only", "read"), ("support", "write"), ("support_associate", "read"), ("analyst", "write"), ("refund_analyst", "read"), ("dispute_analyst", "read")] },
  { apiName := "promotion_operations", description := "Manage promotions",
    productCategory := "Products & Orders", taskCategories := ["Manage catalog", "Configure settings"],
    actions := "read, write", operationType := "Read + Write", riskLevel := "Standard",
    hasPII := false, hasFinancialData := false, hasPaymentCredentials := false,
    roleAccess := [("super_admin", "write"), ("admin", "write"), ("view_only", "read"), ("developer", "write"), ("support", "write"), ("support_associate", "write"), ("analyst", "write")] },
  { apiName := "dashboard_baseline", description := "Basic Dashboard access (required)",
    productCategory := "Support & Operations", taskCategories := ["All tasks"],
    actions := "read", operationType := "Read-only", riskLevel := "Standard",
    hasPII := false, hasFinancialData := false, hasPaymentCredentials := false,
    roleAccess := [("super_admin", "read"), ("admin", "read"), ("view_only", "read"), ("developer", "read"), ("support", "read"), ("support_associate", "read"), ("analyst", "read"), ("refund_analyst", "read"), ("dispute_analyst", "read"), ("issuing_support_agent", "read"), ("tax_analyst", "read"), ("identity_analyst", "read"), ("iam_admin", "read"), ("sandbox_admin", "read")] },
  { apiName := "settings_security", description := "Security configuration",
    productCategory := "Support & Operations", taskCategories := ["Configure settings", "Manage team access"],
    actions := "write", operationType := "Write", riskLevel := "Elevated",
    hasPII := false, hasFinancialData := false, hasPaymentCredentials := true,
    roleAccess := [("iam_admin", "write")] },
  { apiName := "tax_automation_operations", description := "Tax automation rules",
    productCategory := "Tax", taskCategories := ["Configure settings", "Monitor tax compliance"],
    actions := "read, write", operationType := "Read + Write", riskLevel := "Standard",
    hasPII := false, hasFinancialData := false, hasPaymentCredentials := false,
    roleAccess := [("super_admin", "write"), ("admin", "write"), ("view_only", "read"), ("developer", "write"), ("support", "write"), ("analyst", "write"), ("tax_analyst", "write")] },
  { apiName := "tax_filing_operations", description := "Tax filing management",
    productCategory := "Tax", taskCategories := ["Configure settings", "Monitor tax compliance"],
    actions := "read, write", operationType := "Read + Write", riskLevel := "Standard",
    hasPII := true, hasFinancialData := true, hasPaymentCredentials := false,
    roleAccess := [("super_admin", "write"), ("admin", "write"), ("view_only", "read"), ("developer", "read"), ("analyst", "write"), ("tax_analyst", "write")] },
  { apiName := "terminal_infrastructure", description := "View terminal infrastructure",
    productCategory := "Terminal", taskCategories := ["Monitor hardware"],
    actions := "read", operationType := "Read-only", riskLevel := "Standard",
    hasPII := false, hasFinancialData := false, hasPaymentCredentials := false,
    roleAccess := [("super_admin", "read"), ("admin", "read"), ("view_only", "read"), ("support", "read"), ("support_associate", "read"), ("analyst", "read")] },
  { apiName := "terminal_operations", description := "Terminal POS operations",
    productCategory := "Terminal", taskCategories := ["Manage hardware", "Process transactions"],
    actions := "write", operationType := "Write", riskLevel := "Standard",
    hasPII := false, hasFinancialData := false, hasPaymentCredentials := false,
    roleAccess := [("super_admin", "write"), ("admin", "write"), ("analyst", "write")] }
]

/-- Lookup in a JavaScript object modelled as an association list
(`p.roleAccess[roleId]`): first matching key, `none` for `undefined`. -/
def lookupStr (m : List (String × String)) (k : String) : Option String :=
  (m.find? (fun kv => kv.1 == k)).map (fun kv => kv.2)

/-- Truthiness of a JavaScript string-or-undefined value: `undefined`
and the empty string are falsy. -/
def jsTruthy : Option String → Bool
  | none => false
  | some s => s != ""

/-- Source `getSensitivityGroups`: the applicable sensitivity labels of
a permission, derived from its three boolean flags, with
"Non-sensitive" as the fallback when none is set. -/
def getSensitivityGroups (p : Permission) : List String :=
  let groups : List String :=
    (if p.hasPII then ["PII"] else []) ++
    (if p.hasFinancialData then ["Financial Data"] else []) ++
    (if p.hasPaymentCredentials then ["Payment Credentials"] else [])
  if groups.length = 0 then ["Non-sensitive"] else groups

/-- Body of the map callback in `getPermissionsForRole`: when the
resolved access is strictly "read" and the permission nominally allows
more, the source builds a fresh record via object spread with
operationType "Read-only" and actions "read"; otherwise the shared
record itself is returned. -/
def adjustForRole (roleId : String) (p : Permission) : Permission :=
  if lookupStr p.roleAccess roleId == some "read" && p.operationType != "Read-only" then
    { p with operationType := "Read-only", actions := "read" }
  else
    p

/-- Source `getPermissionsForRole`, generalised over the catalog it
reads (the module-level `permissions` array). -/
def getPermissionsForRoleCore (roleId : String) (catalog : List Permission) : List Permission :=
  (catalog.filter (fun p => jsTruthy (lookupStr p.roleAccess roleId))).map
    (adjustForRole roleId)

/-- Source `getPermissionsForRole` applied to the module catalog. -/
def getPermissionsForRole (roleId : String) : List Permission :=
  getPermissionsForRoleCore roleId permissions

/-- State-passing embedding of `getPermissionsForRole`: the module
catalog is the state the function reads.  The source map callback
returns fresh records built by object spread and never assigns to the
shared records, so the embedded state transformer returns the catalog
it was given. -/
def getPermissionsForRoleSt (roleId : String) (catalog : List Permission) :
    List Permission × List Permission :=
  (getPermissionsForRoleCore roleId catalog, catalog)

/-- Source `getPermissionsByApiNames`: membership of `p.apiName` in the
Set built from the input names is membership in the input list. -/
def getPermissionsByApiNames (apiNames : List String) : List Permission :=
  permissions.filter (fun p => apiNames.contains p.apiName)

/-- Append `p` to the bucket of key `k` in an insertion-ordered
association list of buckets (`groups[k].push(p)`), creating the bucket
at the end when the key is new, as a JavaScript object does. -/
def pushKey (groups : List (String × List Permission)) (k : String) (p : Permission) :
    List (String × List Permission) :=
  match groups with
  | [] => [(k, [p])]
  | (k0, l) :: rest =>
    if k0 == k then (k0, l ++ [p]) :: rest else (k0, l) :: pushKey rest k p

/-- Push `p` into each of the buckets named in `ks`, left to right. -/
def pushKeys (groups : List (String × List Permission)) (ks : List String) (p : Permission) :
    List (String × List Permission) :=
  ks.foldl (fun g k => pushKey g k p) groups

/-- Bucket of key `k` in a grouping result (the empty list when the key
is absent). -/
def bucketOf (groups : List (String × List Permission)) (k : String) : List Permission :=
  ((groups.find? (fun g => g.1 == k)).map (fun g => g.2)).getD []

/-- Sum of the bucket sizes of a grouping result. -/
def totalSize (groups : List (String × List Permission)) : Nat :=
  (groups.map (fun g => g.2.length)).sum

/-- Dynamic property access `p[field]` coerced to a string key, as the
final `else` branch of `groupPermissions` performs it at runtime: a
known field yields its value (arrays join with commas, booleans and
objects stringify), any other name yields `undefined`, which the object
indexing coerces to the key "undefined". -/
def jsPropKey (p : Permission) (field : String) : String :=
  if field == "apiName" then p.apiName
  else if field == "description" then p.description
  else if field == "productCategory" then p.productCategory
  else if field == "taskCategories" then String.intercalate "," p.taskCategories
  else if field == "actions" then p.actions
  else if field == "operationType" then p.operationType
  else if field == "riskLevel" then p.riskLevel
  else if field == "hasPII" then toString p.hasPII
  else if field == "hasFinancialData" then toString p.hasFinancialData
  else if field == "hasPaymentCredentials" then toString p.hasPaymentCredentials
  else if field == "roleAccess" then "[object Object]"
  else "undefined"

/-- Source `groupPermissions`, at its runtime (string) dimension type:
taskCategory and sensitivity place a permission in every applicable
bucket; operationType and riskLevel use the respective field; every
other dimension falls through to dynamic property access. -/
def groupPermissions (perms : List Permission) (groupBy : String) :
    List (String × List Permission) :=
  perms.foldl
    (fun groups p =>
      if groupBy == "taskCategory" then pushKeys groups p.taskCategories p
      else if groupBy == "sensitivity" then pushKeys groups (getSensitivityGroups p) p
      else if groupBy == "operationType" then pushKey groups p.operationType p
      else if groupBy == "riskLevel" then pushKey groups p.riskLevel p
      else pushKey groups (jsPropKey p groupBy) p)
    []

/-- Iteration order of a JavaScript Set built from a list: each element
once, in first-insertion order. -/
def jsSetList (l : List String) : List String :=
  l.foldl (fun acc s => if acc.contains s then acc else acc ++ [s]) []

/-- ASCII lower-casing of one character, as JavaScript
`toLowerCase` acts on the ASCII strings of this module. -/
def lowerChar (c : Char) : Char :=
  if 65 ≤ c.toNat ∧ c.toNat ≤ 90 then Char.ofNat (c.toNat + 32) else c

/-- ASCII lower-casing of a string (`s.toLowerCase()`). -/
def lowerStr (s : String) : String :=
  String.mk (s.data.map lowerChar)

/-- Char-list test: does the second list start with the first? -/
def charsStartWith : List Char → List Char → Bool
  | [], _ => true
  | _ :: _, [] => false
  | c :: cs, d :: ds => c == d && charsStartWith cs ds

/-- Char-list test: does `sub` occur contiguously in the list? -/
def charsContain (sub : List Char) : List Char → Bool
  | [] => sub.isEmpty
  | c :: rest => charsStartWith sub (c :: rest) || charsContain sub rest

/-- Substring test `s.includes(sub)`. -/
def jsIncludes (s sub : String) : Bool :=
  charsContain sub.data s.data

/-- Source table of notable missing permissions in `generateCannotDo`,
in object-literal insertion order.  The key customer_pii_operations
matches no catalog permission. -/
def notablePermissions : List (String × String) := [
  ("team_management", "Invite, remove, or manage team member roles"),
  ("sensitive_resources", "View or manage API keys and secrets"),
  ("balance_transfer_operations", "Transfer funds between accounts"),
  ("payout_operations", "Create or manage payouts"),
  ("settings_security", "Change security settings or 2FA"),
  ("dispute_operations", "Accept, challenge, or manage disputes"),
  ("order_refund_operations", "Issue refunds"),
  ("charge_operations", "Create new charges or payments"),
  ("customer_pii_operations", "View or edit customer personal information"),
  ("account_admin_management_operations", "Perform administrative account changes")]

/-- Source `generateCannotDo`: notable missing permissions first, then
a read-only note when nothing grants write, then missing product
categories, each addition guarded by the running length staying under
5, and a final slice to at most 5. -/
def generateCannotDo (selectedPermissions : List Permission) : List String :=
  let allPerms := permissions
  let selectedApiNames := selectedPermissions.map (fun p => p.apiName)
  let cannotList :=
    notablePermissions.foldl
      (fun acc kv =>
        if !selectedApiNames.contains kv.1 && acc.length < 5 then acc ++ [kv.2] else acc)
      []
  let cannotList :=
    if cannotList.length < 5 then
      let hasAnyWrite := selectedPermissions.any (fun p => jsIncludes (lowerStr p.actions) "write")
      if !hasAnyWrite then cannotList ++ ["Make any changes (read-only access)"] else cannotList
    else cannotList
  let cannotList :=
    if cannotList.length < 5 then
      let selectedCategories := selectedPermissions.map (fun p => p.productCategory)
      let allCategories := jsSetList (allPerms.map (fun p => p.productCategory))
      allCategories.foldl
        (fun acc cat =>
          if !selectedCategories.contains cat && acc.length < 5 then
            acc ++ ["Access " ++ cat ++ " features"]
          else acc)
        cannotList
    else cannotList
  cannotList.take 5

/-- Add a value to the Set bucket of key `k` in an insertion-ordered
association list (`taskGroups[tc].add(desc)`): a Set keeps one copy of
each value, in first-insertion order. -/
def pushSetKey (groups : List (String × List String)) (k v : String) :
    List (String × List String) :=
  match groups with
  | [] => [(k, [v])]
  | (k0, l) :: rest =>
    if k0 == k then (k0, if l.contains v then l else l ++ [v]) :: rest
    else (k0, l) :: pushSetKey rest k v

/-- String bucket of key `k` (empty when absent). -/
def bucketOfS (groups : List (String × List String)) (k : String) : List String :=
  ((groups.find? (fun g => g.1 == k)).map (fun g => g.2)).getD []

/-- Display description used by `generateCanDo`:
`p.description || p.apiName.replace(/_/g, " ")` (the empty string is
falsy). -/
def canDoDesc (p : Permission) : String :=
  if p.description == "" then String.mk (p.apiName.data.map (fun c => if c == '_' then ' ' else c))
  else p.description

/-- Grouping phase of `generateCanDo`: for each permission and each of
its task categories, add its description to that category's Set. -/
def taskGroups (selectedPermissions : List Permission) : List (String × List String) :=
  selectedPermissions.foldl
    (fun groups p => p.taskCategories.foldl (fun g tc => pushSetKey g tc (canDoDesc p)) groups)
    []

/-- Source priority ordering of task categories in `generateCanDo`. -/
def priorityTasks : List String := [
  "Process transactions",
  "Handle customer issues",
  "Manage billing",
  "Monitor financials",
  "Export & analyze data",
  "Configure settings",
  "Develop & integrate",
  "Manage team access",
  "Transfer funds"]

/-- Bullets pushed by `generateCanDo` for one priority task category: a
summary bullet when the category holds more than 2 distinct
descriptions, otherwise up to 2 literal descriptions, nothing when the
category is absent or empty. -/
def canDoPriorityStep (tg : List (String × List String)) (task : String) : List String :=
  let descriptions := bucketOfS tg task
  if descriptions.length > 0 then
    if descriptions.length > 2 then
      [task ++ " (" ++ toString descriptions.length ++ " capabilities)"]
    else
      descriptions.take 2
  else []

/-- Bullet pushed by `generateCanDo` for one non-priority task group:
its first description. -/
def canDoRestStep (g : String × List String) : List String :=
  if !priorityTasks.contains g.1 && g.2.length > 0 then g.2.take 1 else []

/-- Bullet list built by `generateCanDo` before deduplication and the
6-item cap: priority categories first, then the first description of
each remaining category in group insertion order. -/
def canDoListRaw (selectedPermissions : List Permission) : List String :=
  let tg := taskGroups selectedPermissions
  let fromPriority := priorityTasks.foldl (fun acc task => acc ++ canDoPriorityStep tg task) []
  tg.foldl (fun acc g => acc ++ canDoRestStep g) fromPriority

/-- Case-insensitive first-occurrence deduplication, as the final
filter of `generateCanDo` performs with its `seen` set. -/
def dedupCaseInsensitive : List String → List String :=
  go []
where
  /-- Worklist recursion carrying the lowercased keys already seen. -/
  go (seen : List String) : List String → List String
    | [] => []
    | x :: xs =>
      if seen.contains (lowerStr x) then go seen xs
      else x :: go (lowerStr x :: seen) xs

/-- Source `generateCanDo`: fixed placeholder for the empty selection,
otherwise the raw bullet list deduplicated case-insensitively and
capped at 6 items. -/
def generateCanDo (selectedPermissions : List Permission) : List String :=
  if selectedPermissions.length = 0 then ["Access basic Dashboard features"]
  else (dedupCaseInsensitive (canDoListRaw selectedPermissions)).take 6

/-- JavaScript `Math.round`: round half up (toward positive infinity on
ties), over exact rationals. -/
def jsRound (x : ℚ) : ℤ :=
  Int.floor (x + 1/2)

structure RiskFactor where
  name : String
  level : String
  description : String
  count : Option Nat
deriving DecidableEq, Repr

structure RiskAssessment where
  overallRisk : String
  score : ℤ
  factors : List RiskFactor
  warnings : List String
  recommendations : List String
deriving DecidableEq, Repr

/-- Plural suffix used in the factor descriptions
(`count > 1 ? 's' : ''`). -/
def plural (n : Nat) : String :=
  if n > 1 then "s" else ""

/-- Write-bearing permissions of a selection (`operationType` "Write"
or "Read + Write"). -/
def writePermissionsOf (perms : List Permission) : List Permission :=
  perms.filter (fun p => p.operationType == "Write" || p.operationType == "Read + Write")

/-- Source `writeCount`. -/
def writeCountOf (perms : List Permission) : Nat :=
  (writePermissionsOf perms).length

/-- Source `readOnlyCount`. -/
def readOnlyCountOf (perms : List Permission) : Nat :=
  (perms.filter (fun p => p.operationType == "Read-only")).length

/-- Source `isReadOnlyRole`: every selected permission is read-only. -/
def isReadOnlyRoleOf (perms : List Permission) : Bool :=
  readOnlyCountOf perms == perms.length

/-- Source `writeRatio` (exact rational; the selection is non-empty on
every path that reads it). -/
def writeFracOf (perms : List Permission) : ℚ :=
  (writeCountOf perms : ℚ) / (perms.length : ℚ)

/-- Source `criticalCount`: critical write-bearing permissions. -/
def criticalCountOf (perms : List Permission) : Nat :=
  ((writePermissionsOf perms).filter (fun p => p.riskLevel == "Critical")).length

/-- Source `elevatedCount`: elevated write-bearing permissions. -/
def elevatedCountOf (perms : List Permission) : Nat :=
  ((writePermissionsOf perms).filter (fun p => p.riskLevel == "Elevated")).length

/-- Source `standardCount` (over the whole selection). -/
def standardCountOf (perms : List Permission) : Nat :=
  (perms.filter (fun p => p.riskLevel == "Standard")).length

/-- Source `piiCount`. -/
def piiCountOf (perms : List Permission) : Nat :=
  (perms.filter (fun p => p.hasPII)).length

/-- Source `financialCount`. -/
def financialCountOf (perms : List Permission) : Nat :=
  (perms.filter (fun p => p.hasFinancialData)).length

/-- Source `credentialsCount`. -/
def credentialsCountOf (perms : List Permission) : Nat :=
  (perms.filter (fun p => p.hasPaymentCredentials)).length

/-- Source `sensitivityMultiplier`: 0.2 for an all-read-only selection,
1 otherwise. -/
def sensitivityMultiplierOf (perms : List Permission) : ℚ :=
  if isReadOnlyRoleOf perms then 0.2 else 1

/-- Number of distinct product categories of a selection
(`new Set(map).size`). -/
def categoriesCountOf (perms : List Permission) : Nat :=
  (jsSetList (perms.map (fun p => p.productCategory))).length

/-- Score accumulated by steps 1 and 2 of `generateRiskAssessment`
(risk-level analysis and sensitivity analysis), before the
operation-type step. -/
def riskScorePreOp (perms : List Permission) : ℤ :=
  (if criticalCountOf perms > 0 then (criticalCountOf perms : ℤ) * 25 else 0)
  + (if elevatedCountOf perms > 0 then (elevatedCountOf perms : ℤ) * 15 else 0)
  + (if credentialsCountOf perms > 0 then
      jsRound (((credentialsCountOf perms : ℚ) * 20) * sensitivityMultiplierOf perms) else 0)
  + (if financialCountOf perms > 0 then
      jsRound (((financialCountOf perms : ℚ) * 10) * sensitivityMultiplierOf perms) else 0)
  + (if piiCountOf perms > 0 then
      jsRound (((piiCountOf perms : ℚ) * 8) * sensitivityMultiplierOf perms) else 0)

/-- Full score accumulation of `generateRiskAssessment` before the
final cap: steps 1 and 2, then the operation-type step (the 0.3
multiplier for an all-read-only selection, else a flat 10 for a
write-heavy one), then the breadth bonus. -/
def riskTotalScore (perms : List Permission) : ℤ :=
  let s1 := riskScorePreOp perms
  let s2 :=
    if isReadOnlyRoleOf perms then jsRound ((s1 : ℚ) * 0.3)
    else if writeFracOf perms > 0.7 then s1 + 10
    else s1
  if categoriesCountOf perms > 8 then s2 + 10 else s2

/-- Factor list of `generateRiskAssessment` in push order (before the
final severity sort). -/
def riskFactorsRaw (perms : List Permission) : List RiskFactor :=
  let ro := isReadOnlyRoleOf perms
  let cc := criticalCountOf perms
  let ec := elevatedCountOf perms
  let crc := credentialsCountOf perms
  let fc := financialCountOf perms
  let pc := piiCountOf perms
  let sc := standardCountOf perms
  let nCat := categoriesCountOf perms
  (if cc > 0 then
    [⟨"Critical Operations", "High",
      toString cc ++ " permission" ++ plural cc ++ " can perform irreversible or high-impact actions",
      some cc⟩] else [])
  ++ (if ec > 0 then
    [⟨"Administrative Access", "High",
      toString ec ++ " permission" ++ plural ec ++ " can modify settings or manage access",
      some ec⟩] else [])
  ++ (if crc > 0 then
    [⟨"Payment Credentials", if ro then "Medium" else "High",
      (if ro then "Read " else "Access to ") ++ toString crc ++ " permission" ++ plural crc
        ++ " with API keys, secrets, or payment tokens",
      some crc⟩] else [])
  ++ (if fc > 0 then
    [⟨"Financial Data", if ro then "Low" else "High",
      (if ro then "Read-only view of " else "Access to ") ++ toString fc ++ " permission"
        ++ plural fc ++ " with financial records",
      some fc⟩] else [])
  ++ (if pc > 0 then
    [⟨"Personal Information", if ro then "Low" else "Medium",
      (if ro then "Read-only view of " else "Access to ") ++ toString pc ++ " permission"
        ++ plural pc ++ " with customer PII",
      some pc⟩] else [])
  ++ (if ro then
    [⟨"Read-Only Access", "Low", "All permissions are read-only - no modification capability",
      some (readOnlyCountOf perms)⟩]
    else if writeFracOf perms > 0.7 then
    [⟨"Write-Heavy Access", "Medium",
      toString (jsRound (writeFracOf perms * 100)) ++ "% of permissions allow modifications",
      some (writeCountOf perms)⟩] else [])
  ++ (if sc > 0 && cc == 0 && ec == 0 && !ro then
    [⟨"Standard Operations", "Low",
      toString sc ++ " permission" ++ plural sc ++ " with routine, low-risk access",
      some sc⟩] else [])
  ++ (if nCat > 8 then
    [⟨"Broad Access", "Medium", "Spans " ++ toString nCat ++ " product areas", some nCat⟩]
    else [])

/-- Source `HIGH_RISK_PERMISSIONS` table, in object-literal insertion
order. -/
def HIGH_RISK_PERMISSIONS : List (String × String) := [
  ("balance_transfer_operations", "Can transfer funds between accounts"),
  ("account_admin_management_operations", "Can perform destructive account operations"),
  ("team_management", "Can invite/remove team members and change roles"),
  ("settings_security", "Can modify security settings and 2FA"),
  ("sensitive_resources", "Has access to API keys and secrets"),
  ("embeddable_key_admin", "Can manage embeddable keys"),
  ("payout_operations", "Can create and manage payouts")]

/-- Warning list of `generateRiskAssessment` in push order: the
credential and PII warnings of the sensitivity step, then one warning
per present high-risk permission. -/
def riskWarnings (perms : List Permission) : List String :=
  let ro := isReadOnlyRoleOf perms
  (if credentialsCountOf perms > 0 && !ro then
    ["Role has access to payment credentials - ensure proper security training"] else [])
  ++ (if piiCountOf perms > 0 && piiCountOf perms > 3 && !ro then
    ["Broad PII access - ensure GDPR/privacy compliance"] else [])
  ++ HIGH_RISK_PERMISSIONS.foldl
      (fun acc kv => if perms.any (fun p => p.apiName == kv.1) then acc ++ [kv.2] else acc) []

/-- Recommendation list of `generateRiskAssessment` in push order: the
breadth recommendation of step 5, then the step-6 recommendations. -/
def riskRecommendations (perms : List Permission) : List String :=
  (if categoriesCountOf perms > 8 then ["Consider splitting into more focused roles"] else [])
  ++ (if criticalCountOf perms > 0 && !perms.any (fun p => p.apiName == "team_management") then
    ["Critical operations without team management - ensure proper oversight"] else [])
  ++ (if perms.length > 30 then ["Large permission set - review if all are necessary"] else [])
  ++ (if writeCountOf perms > 0 && readOnlyCountOf perms == 0 then
    ["No read-only permissions - consider adding for audit visibility"] else [])

/-- Final classification of `generateRiskAssessment`, branch for
branch: the 70 threshold and the 45 threshold both resolve to High. -/
def classifyRisk (cappedScore : ℤ) : String :=
  if cappedScore ≥ 70 then "High"
  else if cappedScore ≥ 45 then "High"
  else if cappedScore ≥ 20 then "Medium"
  else "Low"

/-- Source `riskOrder` severity ranking of factor levels. -/
def riskOrder (level : String) : Nat :=
  if level == "High" then 0 else if level == "Medium" then 1 else 2

/-- Source `generateRiskAssessment`: early return for the empty
selection, otherwise accumulate the score, cap it at 100, classify,
sort the factors by severity (a stable sort, as the JavaScript array
sort is), and truncate warnings to 5 and recommendations to 3. -/
def generateRiskAssessment (selectedPermissions : List Permission) : RiskAssessment :=
  if selectedPermissions.length = 0 then
    { overallRisk := "Low", score := 0, factors := [], warnings := [],
      recommendations := ["Add permissions to define role capabilities"] }
  else
    let cappedScore := min 100 (riskTotalScore selectedPermissions)
    { overallRisk := classifyRisk cappedScore,
      score := cappedScore,
      factors := (riskFactorsRaw selectedPermissions).insertionSort
        (fun a b => riskOrder a.level ≤ riskOrder b.level),
      warnings := (riskWarnings selectedPermissions).take 5,
      recommendations := (riskRecommendations selectedPermissions).take 3 }

/-- Permission field names reachable through the dynamic property
access of the final groupPermissions branch (displayName is a field of
the source record although no verified operation reads it). -/
def permissionFieldNames : List String := [
  "apiName", "displayName", "description", "productCategory", "taskCategories",
  "actions", "operationType", "riskLevel", "hasPII", "hasFinancialData",
  "hasPaymentCredentials", "roleAccess"]

/-- Concrete selection used in witnesses: the baseline record (no
sensitivity flags) and the data-export record (PII and financial
flags). -/
def sensDemoPerms : List Permission :=
  permissions.filter
    (fun p => p.apiName == "dashboard_baseline" || p.apiName == "data_export_operations")

/-- The data_export_operations catalog record. -/
def dataExportPerm : Permission :=
  (permissions.filter (fun p => p.apiName == "data_export_operations")).headI

/-- The dashboard_baseline catalog record. -/
def dashboardPerm : Permission :=
  (permissions.filter (fun p => p.apiName == "dashboard_baseline")).headI

/-- Modelled from the spec wording of claim C1: the "pre-multiplier
score" of a selection, namely the accumulated score with every addition
applied — risk-level, sensitivity, the write-heavy flat 10 and the
breadth bonus — and only the read-only 0.3 multiplication skipped. -/
def specPreMultiplierScore (perms : List Permission) : ℤ :=
  riskScorePreOp perms
    + (if !isReadOnlyRoleOf perms ∧ writeFracOf perms > 0.7 then 10 else 0)
    + (if categoriesCountOf perms > 8 then 10 else 0)

/-- Synthetic read-only permission in a given product category, used
for counterexample selections. -/
def mkReadOnlyPerm (cat : String) (pii : Bool) : Permission :=
  { apiName := "ro_" ++ cat, description := "view " ++ cat, productCategory := cat,
    taskCategories := [], actions := "read", operationType := "Read-only",
    riskLevel := "Standard", hasPII := pii, hasFinancialData := false,
    hasPaymentCredentials := false, roleAccess := [] }

/-- Nine-category all-read-only selection with a single PII flag. -/
def roSetC1 : List Permission :=
  mkReadOnlyPerm "c1" true ::
    (["c2", "c3", "c4", "c5", "c6", "c7", "c8", "c9"].map (fun c => mkReadOnlyPerm c false))

/-- The singleton selection holding the balance_transfer_operations
catalog record. -/
def btoPerms : List Permission :=
  permissions.filter (fun p => p.apiName == "balance_transfer_operations")

/-- Synthetic write permission in the Process transactions task
category with a chosen description, used for can-do counterexamples. -/
def mkTaskPerm (api desc : String) : Permission :=
  { apiName := api, description := desc, productCategory := "Payments",
    taskCategories := ["Process transactions"], actions := "write", operationType := "Write",
    riskLevel := "Standard", hasPII := false, hasFinancialData := false,
    hasPaymentCredentials := false, roleAccess := [] }

/-- Three permissions sharing a task category, two of them sharing one
description. -/
def canDoDupPerms : List Permission :=
  [mkTaskPerm "a" "dup", mkTaskPerm "b" "dup", mkTaskPerm "c" "other"]

/-- Three permissions sharing a task category with three distinct
descriptions. -/
def canDoDistinctPerms : List Permission :=
  [mkTaskPerm "a" "d1", mkTaskPerm "b" "d2", mkTaskPerm "c" "d3"]

/-! ## Catalog facts and shared lemmas -/

set_option maxRecDepth 80000

/-- Catalog invariant: every permission whose operationType is
"Read-only" has actions "read". -/
theorem catalog_readOnly_actions :
    ∀ q ∈ permissions, q.operationType = "Read-only" → q.actions = "read" := by
  decide

/-- Catalog invariant: the api names of the catalog are pairwise
distinct. -/
theorem catalog_apiNames_nodup : (permissions.map (fun p => p.apiName)).Nodup := by
  decide

/-! ## C2: generateCannotDo cap and the full-catalog result -/

/-- Claim C2 counterexample: for the input consisting of every
permission in the catalog, generateCannotDo does not return the empty
list: the dead customer_pii_operations reference in the notable-missing
table matches no catalog permission, so its description survives. -/
theorem generateCannotDo_full_catalog_not_empty :
    generateCannotDo permissions = ["View or edit customer personal information"] ∧
      generateCannotDo permissions ≠ [] := by
  constructor
  · decide
  · decide

/-- Claim C2 (amended): generateCannotDo returns at most 5 items for
every input, and for the input consisting of every permission in the
catalog it returns exactly the one-element list holding the description
of the dead customer_pii_operations reference, not the empty list. -/
theorem generateCannotDo_le_five_and_full_catalog :
    (∀ perms : List Permission, (generateCannotDo perms).length ≤ 5) ∧
      generateCannotDo permissions = ["View or edit customer personal information"] := by
  constructor
  · intro perms
    unfold generateCannotDo
    exact List.length_take_le 5 _
  · decide

/-! ## C3: grouping by an unrecognized dimension -/

/-- Claim C3 counterexample: grouping by the unrecognized dimension
"bogus" does not fail with any error: groupPermissions is total and
silently files every permission under the key "undefined" (the string
coercion of the undefined dynamic property). -/
theorem groupPermissions_bogus_counterexample :
    groupPermissions (permissions.take 1) "bogus" = [("undefined", permissions.take 1)] := by
  decide

/-- Helper: pushing a fixed key over a whole list accumulates one
bucket. -/
theorem foldl_pushKey_fixed (l : List Permission) :
    ∀ acc : List Permission,
      l.foldl (fun g p => pushKey g "undefined" p) [("undefined", acc)]
        = [("undefined", acc ++ l)] := by
  induction l with
  | nil => intro acc; simp
  | cons p rest ih =>
    intro acc
    have hpush : pushKey [("undefined", acc)] "undefined" p = [("undefined", acc ++ [p])] := by
      simp [pushKey]
    simp only [List.foldl_cons, hpush, ih]
    simp

/-- Claim C3 (amended): calling groupPermissions with a dimension that
is neither one of the five documented options nor any Permission field
name does not fail with an InvalidArgument error; it silently defaults,
returning the single bucket keyed "undefined" that holds every input
permission in order (and the empty grouping for the empty input). -/
theorem groupPermissions_unknown_dimension (perms : List Permission) (dim : String)
    (h : dim ∉ "sensitivity" :: "taskCategory" :: permissionFieldNames) :
    groupPermissions perms dim = if perms.length = 0 then [] else [("undefined", perms)] := by
  simp only [permissionFieldNames, List.mem_cons, List.mem_singleton, not_or,
    List.not_mem_nil, or_false] at h
  obtain ⟨hsens, htcsing, hapi, hdisp, hdesc, hpcat, htcats, hact, hop, hrisk, hpii, hfin,
    hcred, hra⟩ := h
  have hfalse : ∀ t : String, dim ≠ t → (dim == t) = false := by
    intro t ht; exact beq_eq_false_iff_ne.mpr ht
  have htc : (dim == "taskCategory") = false := hfalse _ htcsing
  have hstep : ∀ (g : List (String × List Permission)) (p : Permission),
      (if dim == "taskCategory" then pushKeys g p.taskCategories p
       else if dim == "sensitivity" then pushKeys g (getSensitivityGroups p) p
       else if dim == "operationType" then pushKey g p.operationType p
       else if dim == "riskLevel" then pushKey g p.riskLevel p
       else pushKey g (jsPropKey p dim) p) = pushKey g "undefined" p := by
    intro g p
    have hkey : jsPropKey p dim = "undefined" := by
      unfold jsPropKey
      rw [hfalse _ hapi, hfalse _ hdesc, hfalse _ hpcat, hfalse _ htcats, hfalse _ hact,
        hfalse _ hop, hfalse _ hrisk, hfalse _ hpii, hfalse _ hfin, hfalse _ hcred,
        hfalse _ hra]
      simp
    rw [htc, hfalse _ hsens, hfalse _ hop, hfalse _ hrisk, hkey]
    simp
  cases perms with
  | nil => simp [groupPermissions]
  | cons p l =>
    have h0 : groupPermissions (p :: l) dim
        = (p :: l).foldl (fun g q => pushKey g "undefined" q) [] := by
      unfold groupPermissions
      exact List.foldl_ext _ _ [] (fun g q _ => hstep g q)
    rw [h0]
    simp only [List.foldl_cons]
    have h1 : pushKey [] "undefined" p = [("undefined", [p])] := rfl
    rw [h1, foldl_pushKey_fixed l [p]]
    simp

/-- Witness for the unknown-dimension theorem at a concrete dimension
and input. -/
theorem groupPermissions_unknown_dimension_witness :
    groupPermissions (permissions.take 2) "zzz"
      = if (permissions.take 2).length = 0 then [] else [("undefined", permissions.take 2)] :=
  groupPermissions_unknown_dimension (permissions.take 2) "zzz" (by decide)

/-! ## C4: read access forces a read-only view -/

/-- Claim C4: for every role id and every permission returned by
getPermissionsForRole, if the resolved access for that role is exactly
"read" then the returned record reports operationType "Read-only" and
actions "read".  When the override branch is not taken the record was
already nominally read-only, and the catalog invariant gives actions
"read". -/
theorem getPermissionsForRole_read_is_readOnly (roleId : String) (p : Permission)
    (hmem : p ∈ getPermissionsForRole roleId)
    (hread : lookupStr p.roleAccess roleId = some "read") :
    p.operationType = "Read-only" ∧ p.actions = "read" := by
  unfold getPermissionsForRole getPermissionsForRoleCore at hmem
  obtain ⟨q, hq, hadj⟩ := List.mem_map.mp hmem
  have hqcat : q ∈ permissions := List.mem_of_mem_filter hq
  unfold adjustForRole at hadj
  by_cases hc : (lookupStr q.roleAccess roleId == some "read"
      && q.operationType != "Read-only") = true
  · rw [if_pos hc] at hadj
    subst hadj
    exact ⟨rfl, rfl⟩
  · rw [if_neg hc] at hadj
    subst hadj
    have hb := Bool.and_eq_false_iff.mp (Bool.eq_false_iff.mpr hc)
    have hop : q.operationType = "Read-only" := by
      rcases hb with hb | hb
      · exact absurd hread (by simpa using hb)
      · simpa using hb
    exact ⟨hop, catalog_readOnly_actions q hqcat hop⟩

/-- Witness for C4 at role analyst and the balance_operations record. -/
theorem getPermissionsForRole_read_is_readOnly_witness :
    ((permissions.filter (fun p => p.apiName == "balance_operations")).headI).operationType
        = "Read-only" ∧
      ((permissions.filter (fun p => p.apiName == "balance_operations")).headI).actions
        = "read" :=
  getPermissionsForRole_read_is_readOnly "analyst"
    ((permissions.filter (fun p => p.apiName == "balance_operations")).headI)
    (by decide) (by decide)

/-! ## C9: getPermissionsForRole does not mutate the catalog -/

/-- Claim C9: in the state-passing embedding, resolving a role for any
role id leaves the shared catalog state unchanged: the read-access
override is built by copying, and every catalog record keeps its
operationType and actions. -/
theorem getPermissionsForRole_frame (roleId : String) (catalog : List Permission) :
    (getPermissionsForRoleSt roleId catalog).2 = catalog ∧
      ∀ i : Nat,
        ((getPermissionsForRoleSt roleId catalog).2.get? i).map Permission.operationType
            = (catalog.get? i).map Permission.operationType ∧
          ((getPermissionsForRoleSt roleId catalog).2.get? i).map Permission.actions
            = (catalog.get? i).map Permission.actions :=
  ⟨rfl, fun _ => ⟨rfl, rfl⟩⟩

/-! ## C10: getPermissionsByApiNames as a function of name membership -/

/-- Claim C10: the result of getPermissionsByApiNames is a sublist of
the catalog (hence in catalog order with at most one entry per catalog
record, and its api names are pairwise distinct), and it depends on the
input only through membership, so permuting or duplicating the input
names leaves the result unchanged. -/
theorem getPermissionsByApiNames_membership (apiNames : List String) :
    (getPermissionsByApiNames apiNames).Sublist permissions ∧
      ((getPermissionsByApiNames apiNames).map (fun p => p.apiName)).Nodup ∧
      ∀ apiNames2 : List String, (∀ s : String, s ∈ apiNames ↔ s ∈ apiNames2) →
        getPermissionsByApiNames apiNames = getPermissionsByApiNames apiNames2 := by
  refine ⟨List.filter_sublist _, ?_, ?_⟩
  · exact List.Nodup.sublist (List.Sublist.map _ (List.filter_sublist _)) catalog_apiNames_nodup
  · intro apiNames2 hiff
    unfold getPermissionsByApiNames
    apply List.filter_congr
    intro p _
    have h1 : apiNames.contains p.apiName = apiNames2.contains p.apiName := by
      show apiNames.elem p.apiName = apiNames2.elem p.apiName
      rw [List.elem_eq_mem, List.elem_eq_mem]
      exact decide_eq_decide.mpr (hiff _)
    rw [h1]

/-- Witness for C10: duplicating and reordering the query names does
not change the result. -/
theorem getPermissionsByApiNames_membership_witness :
    getPermissionsByApiNames ["charge", "team_management"]
      = getPermissionsByApiNames ["team_management", "charge", "charge"] :=
  (getPermissionsByApiNames_membership ["charge", "team_management"]).2.2
    ["team_management", "charge", "charge"] (by intro s; simp; tauto)

/-! ## C5: sensitivity grouping invariants -/

/-- Bucket lookup on the empty grouping. -/
theorem bucketOf_nil (k : String) : bucketOf [] k = [] := rfl

/-- Bucket lookup on a cons cell. -/
theorem bucketOf_cons (k0 : String) (l : List Permission) (rest : List (String × List Permission))
    (k : String) :
    bucketOf ((k0, l) :: rest) k = if k0 = k then l else bucketOf rest k := by
  by_cases h : k0 = k
  · rw [if_pos h]
    simp [bucketOf, List.find?_cons_of_pos, h]
  · rw [if_neg h]
    have hb : ((k0, l).1 == k) = false := beq_eq_false_iff_ne.mpr h
    simp [bucketOf, List.find?_cons_of_neg, hb]

/-- Pushing into one bucket extends exactly that bucket by one
element. -/
theorem bucketOf_pushKey (g : List (String × List Permission)) (k k' : String) (p : Permission) :
    bucketOf (pushKey g k p) k' = if k' = k then bucketOf g k' ++ [p] else bucketOf g k' := by
  induction g with
  | nil =>
    by_cases h : k' = k
    · subst h; simp [pushKey, bucketOf_cons, bucketOf_nil]
    · rw [if_neg h]
      have hcons : pushKey ([] : List (String × List Permission)) k p = [(k, [p])] := rfl
      rw [hcons, bucketOf_cons, if_neg (fun he => h (Eq.symm he))]
  | cons hd tl ih =>
    obtain ⟨k0, l⟩ := hd
    by_cases h0 : k0 = k
    · subst h0
      by_cases h1 : k' = k0
      · subst h1; simp [pushKey, bucketOf_cons]
      · rw [if_neg h1]
        simp only [pushKey, if_pos (beq_self_eq_true k0), bucketOf_cons,
          if_neg (fun he => h1 (Eq.symm he))]
    · have hb0 : (k0 == k) = false := beq_eq_false_iff_ne.mpr h0
      by_cases h1 : k' = k0
      · subst h1
        rw [if_neg h0]
        simp [pushKey, hb0, bucketOf_cons]
      · simp only [pushKey, hb0, Bool.false_eq_true, if_false, bucketOf_cons,
          if_neg (fun he => h1 (Eq.symm he)), ih]

/-- Membership in a bucket after pushing a permission into several
buckets. -/
theorem mem_bucketOf_pushKeys (ks : List String) (g : List (String × List Permission))
    (p q : Permission) (k' : String) :
    q ∈ bucketOf (pushKeys g ks p) k' ↔ q ∈ bucketOf g k' ∨ (q = p ∧ k' ∈ ks) := by
  induction ks generalizing g with
  | nil => simp [pushKeys]
  | cons k rest ih =>
    have hstep : pushKeys g (k :: rest) p = pushKeys (pushKey g k p) rest p := rfl
    rw [hstep, ih, bucketOf_pushKey]
    by_cases h : k' = k
    · rw [if_pos h]
      constructor
      · rintro (hx | ⟨hq, hm⟩)
        · rcases List.mem_append.mp hx with hg | hp
          · exact Or.inl hg
          · exact Or.inr ⟨List.mem_singleton.mp hp, h ▸ List.mem_cons_self k rest⟩
        · exact Or.inr ⟨hq, List.mem_cons_of_mem k hm⟩
      · rintro (hg | ⟨hq, hmem⟩)
        · exact Or.inl (List.mem_append_left _ hg)
        · rcases List.mem_cons.mp hmem with he | hm
          · exact Or.inl (List.mem_append_right _ (List.mem_singleton.mpr hq))
          · exact Or.inr ⟨hq, hm⟩
    · rw [if_neg h]
      constructor
      · rintro (hg | ⟨hq, hm⟩)
        · exact Or.inl hg
        · exact Or.inr ⟨hq, List.mem_cons_of_mem k hm⟩
      · rintro (hg | ⟨hq, hmem⟩)
        · exact Or.inl hg
        · rcases List.mem_cons.mp hmem with he | hm
          · exact absurd he h
          · exact Or.inr ⟨hq, hm⟩

/-- Membership in a bucket of the sensitivity grouping fold, for an
arbitrary starting accumulator. -/
theorem mem_bucketOf_foldSens (perms : List Permission) :
    ∀ (g : List (String × List Permission)) (k : String) (q : Permission),
      q ∈ bucketOf
          (perms.foldl (fun g p => pushKeys g (getSensitivityGroups p) p) g) k
        ↔ q ∈ bucketOf g k ∨ ∃ p ∈ perms, q = p ∧ k ∈ getSensitivityGroups p := by
  induction perms with
  | nil => simp
  | cons p rest ih =>
    intro g k q
    simp only [List.foldl_cons]
    rw [ih, mem_bucketOf_pushKeys]
    simp only [List.mem_cons]
    constructor
    · rintro ((hg | hp) | ⟨x, hx, hq⟩)
      · exact Or.inl hg
      · exact Or.inr ⟨p, Or.inl rfl, hp⟩
      · exact Or.inr ⟨x, Or.inr hx, hq⟩
    · rintro (hg | ⟨x, hx | hx, hq⟩)
      · exact Or.inl (Or.inl hg)
      · exact Or.inl (Or.inr (hx ▸ hq))
      · exact Or.inr ⟨x, hx, hq⟩

/-- The sensitivity grouping of the source, as a plain fold. -/
theorem groupPermissions_sensitivity_eq (perms : List Permission) :
    groupPermissions perms "sensitivity"
      = perms.foldl (fun g p => pushKeys g (getSensitivityGroups p) p) [] := rfl

/-- Membership in a sensitivity bucket is membership in the input with
the key among the permission's sensitivity labels. -/
theorem mem_bucketOf_groupSens (perms : List Permission) (k : String) (q : Permission) :
    q ∈ bucketOf (groupPermissions perms "sensitivity") k
      ↔ q ∈ perms ∧ k ∈ getSensitivityGroups q := by
  rw [groupPermissions_sensitivity_eq, mem_bucketOf_foldSens]
  simp only [bucketOf_nil, List.not_mem_nil, false_or]
  constructor
  · rintro ⟨x, hx, rfl, hk⟩
    exact ⟨hx, hk⟩
  · rintro ⟨hq, hk⟩
    exact ⟨q, hq, rfl, hk⟩

/-- Pushing into one bucket grows the total size by one. -/
theorem totalSize_pushKey (g : List (String × List Permission)) (k : String) (p : Permission) :
    totalSize (pushKey g k p) = totalSize g + 1 := by
  induction g with
  | nil => simp [pushKey, totalSize]
  | cons hd tl ih =>
    obtain ⟨k0, l⟩ := hd
    by_cases h : k0 = k
    · subst h
      simp [pushKey, totalSize, List.length_append]
      omega
    · have hb : (k0 == k) = false := beq_eq_false_iff_ne.mpr h
      simp only [pushKey, hb, Bool.false_eq_true, if_false]
      simp only [totalSize, List.map_cons, List.sum_cons] at ih ⊢
      omega

/-- Pushing into several buckets grows the total size by the number of
buckets pushed. -/
theorem totalSize_pushKeys (ks : List String) (g : List (String × List Permission))
    (p : Permission) :
    totalSize (pushKeys g ks p) = totalSize g + ks.length := by
  induction ks generalizing g with
  | nil => simp [pushKeys]
  | cons k rest ih =>
    have hstep : pushKeys g (k :: rest) p = pushKeys (pushKey g k p) rest p := rfl
    rw [hstep, ih, totalSize_pushKey]
    simp only [List.length_cons]
    omega

/-- A permission always has at least one sensitivity label. -/
theorem getSensitivityGroups_length_pos (p : Permission) :
    1 ≤ (getSensitivityGroups p).length := by
  unfold getSensitivityGroups
  cases hp : p.hasPII <;> cases hf : p.hasFinancialData <;>
    cases hc : p.hasPaymentCredentials <;> simp

/-- The sensitivity fold grows the total size by at least one per
input permission. -/
theorem totalSize_foldSens (perms : List Permission) :
    ∀ g : List (String × List Permission),
      totalSize g + perms.length
        ≤ totalSize (perms.foldl (fun g p => pushKeys g (getSensitivityGroups p) p) g) := by
  induction perms with
  | nil => simp
  | cons p rest ih =>
    intro g
    simp only [List.foldl_cons, List.length_cons]
    have h1 := ih (pushKeys g (getSensitivityGroups p) p)
    rw [totalSize_pushKeys] at h1
    have h2 := getSensitivityGroups_length_pos p
    omega

/-- The Non-sensitive label applies exactly when no sensitivity flag is
set. -/
theorem nonsensitive_mem_iff (p : Permission) :
    "Non-sensitive" ∈ getSensitivityGroups p
      ↔ p.hasPII = false ∧ p.hasFinancialData = false ∧ p.hasPaymentCredentials = false := by
  unfold getSensitivityGroups
  cases hp : p.hasPII <;> cases hf : p.hasFinancialData <;>
    cases hc : p.hasPaymentCredentials <;> simp

/-- The labels of a permission flagged exactly PII and financial. -/
theorem sensitivityGroups_pii_financial (p : Permission) (hp : p.hasPII = true)
    (hf : p.hasFinancialData = true) (hc : p.hasPaymentCredentials = false) :
    getSensitivityGroups p = ["PII", "Financial Data"] := by
  unfold getSensitivityGroups
  simp [hp, hf, hc]

/-- Claim C5: grouping by sensitivity is exhaustive (the bucket sizes
sum to at least the input length), the Non-sensitive bucket holds a
member of the input exactly when none of its three flags is set, and a
member flagged exactly PII and financial lies in exactly the PII and
Financial Data buckets. -/
theorem groupPermissions_sensitivity_properties (perms : List Permission) :
    perms.length ≤ totalSize (groupPermissions perms "sensitivity") ∧
      (∀ p ∈ perms,
        (p ∈ bucketOf (groupPermissions perms "sensitivity") "Non-sensitive"
          ↔ p.hasPII = false ∧ p.hasFinancialData = false ∧
            p.hasPaymentCredentials = false)) ∧
      (∀ p ∈ perms, p.hasPII = true → p.hasFinancialData = true →
        p.hasPaymentCredentials = false →
          p ∈ bucketOf (groupPermissions perms "sensitivity") "PII" ∧
          p ∈ bucketOf (groupPermissions perms "sensitivity") "Financial Data" ∧
          ∀ k : String, k ≠ "PII" → k ≠ "Financial Data" →
            p ∉ bucketOf (groupPermissions perms "sensitivity") k) := by
  refine ⟨?_, ?_, ?_⟩
  · rw [groupPermissions_sensitivity_eq]
    have h := totalSize_foldSens perms []
    simpa [totalSize] using h
  · intro p hp
    rw [mem_bucketOf_groupSens]
    constructor
    · rintro ⟨-, hk⟩
      exact (nonsensitive_mem_iff p).mp hk
    · intro hflags
      exact ⟨hp, (nonsensitive_mem_iff p).mpr hflags⟩
  · intro p hp hpii hfin hcred
    have hsg := sensitivityGroups_pii_financial p hpii hfin hcred
    refine ⟨?_, ?_, ?_⟩
    · rw [mem_bucketOf_groupSens, hsg]
      exact ⟨hp, by simp⟩
    · rw [mem_bucketOf_groupSens, hsg]
      exact ⟨hp, by simp⟩
    · intro k hk1 hk2 hmem
      rw [mem_bucketOf_groupSens, hsg] at hmem
      rcases hmem with ⟨-, hk⟩
      rcases List.mem_cons.mp hk with he | hk
      · exact hk1 he
      · rcases List.mem_cons.mp hk with he | hk
        · exact hk2 he
        · exact List.not_mem_nil k hk

/-- Witness for C5 on a concrete two-permission selection. -/
theorem groupPermissions_sensitivity_properties_witness :
    dataExportPerm ∈ bucketOf (groupPermissions sensDemoPerms "sensitivity") "PII" ∧
      dataExportPerm ∉ bucketOf (groupPermissions sensDemoPerms "sensitivity") "Non-sensitive" ∧
      (dashboardPerm ∈ bucketOf (groupPermissions sensDemoPerms "sensitivity") "Non-sensitive") := by
  obtain ⟨-, h2, h3⟩ := groupPermissions_sensitivity_properties sensDemoPerms
  obtain ⟨hPII, -, hout⟩ := h3 dataExportPerm (by decide) (by decide) (by decide) (by decide)
  refine ⟨hPII, hout "Non-sensitive" (by decide) (by decide), ?_⟩
  exact (h2 dashboardPerm (by decide)).mpr (by decide)

/-! ## Risk score evaluation lemmas -/

/-- Evaluation rule for the half-up rounding. -/
theorem jsRound_eq (x : ℚ) (n : ℤ) (h1 : (n : ℚ) ≤ x + 1/2) (h2 : x + 1/2 < n + 1) :
    jsRound x = n := by
  unfold jsRound
  exact Int.floor_eq_iff.mpr ⟨h1, by exact_mod_cast h2⟩

/-- The nine-permission read-only selection is recognised as
read-only. -/
theorem isReadOnlyRoleOf_roSetC1 : isReadOnlyRoleOf roSetC1 = true := by decide

/-- Pre-operation-type score of the nine-permission selection: one PII
permission at weight 8 with the 0.2 read-only multiplier, rounded half
up to 2. -/
theorem riskScorePreOp_roSetC1 : riskScorePreOp roSetC1 = 2 := by
  unfold riskScorePreOp
  rw [show criticalCountOf roSetC1 = 0 from by decide,
    show elevatedCountOf roSetC1 = 0 from by decide,
    show credentialsCountOf roSetC1 = 0 from by decide,
    show financialCountOf roSetC1 = 0 from by decide,
    show piiCountOf roSetC1 = 1 from by decide,
    show sensitivityMultiplierOf roSetC1 = 0.2 from by
      unfold sensitivityMultiplierOf
      rw [isReadOnlyRoleOf_roSetC1]
      rfl]
  rw [jsRound_eq ((
    (1 : Nat) : ℚ) * 8 * 0.2) 2 (by norm_num) (by norm_num)]
  norm_num

/-- Total score of the nine-permission selection: round(2 times 0.3)
is 1, plus the breadth bonus of 10. -/
theorem riskTotalScore_roSetC1 : riskTotalScore roSetC1 = 11 := by
  unfold riskTotalScore
  rw [isReadOnlyRoleOf_roSetC1, riskScorePreOp_roSetC1,
    show categoriesCountOf roSetC1 = 9 from by decide]
  simp only [if_true]
  rw [jsRound_eq ((2 : ℤ) * 0.3 : ℚ) 1 (by norm_num) (by norm_num)]
  norm_num

/-- Spec-worded pre-multiplier score of the nine-permission selection:
sensitivity score 2 plus breadth bonus 10. -/
theorem specPreMultiplierScore_roSetC1 : specPreMultiplierScore roSetC1 = 12 := by
  unfold specPreMultiplierScore
  rw [riskScorePreOp_roSetC1, isReadOnlyRoleOf_roSetC1,
    show categoriesCountOf roSetC1 = 9 from by decide]
  norm_num

/-- Reported score of the nine-permission selection. -/
theorem riskAssessment_score_roSetC1 : (generateRiskAssessment roSetC1).score = 11 := by
  unfold generateRiskAssessment
  rw [if_neg (by decide : ¬(roSetC1.length = 0))]
  show min 100 (riskTotalScore roSetC1) = 11
  rw [riskTotalScore_roSetC1]
  norm_num

/-! ## C1: position of the read-only 0.3 multiplier -/

/-- Claim C1 counterexample: a nine-category all-read-only selection
with one PII flag scores 11 while its spec-worded pre-multiplier score
is 12, and 11 is more than 30 percent of 12: the breadth bonus is added
after the multiplier, and the rounding is half-up. -/
theorem riskAssessment_readOnly_counterexample :
    roSetC1.all (fun p => p.operationType == "Read-only") = true ∧
      3 * specPreMultiplierScore roSetC1 < 10 * (generateRiskAssessment roSetC1).score := by
  constructor
  · decide
  · rw [specPreMultiplierScore_roSetC1, riskAssessment_score_roSetC1]
    norm_num

/-- Claim C1 (amended): for every non-empty all-read-only selection the
accumulated score is the half-up rounding of 0.3 times the score
accumulated through the sensitivity step, with the 10-point breadth
bonus added after that multiplication, and the reported score is this
total capped at 100. -/
theorem riskAssessment_readOnly_multiplier_position (perms : List Permission)
    (hne : perms ≠ []) (hro : ∀ p ∈ perms, p.operationType = "Read-only") :
    riskTotalScore perms
        = jsRound ((riskScorePreOp perms : ℚ) * 0.3)
          + (if categoriesCountOf perms > 8 then 10 else 0) ∧
      (generateRiskAssessment perms).score = min 100 (riskTotalScore perms) := by
  have hroB : isReadOnlyRoleOf perms = true := by
    unfold isReadOnlyRoleOf readOnlyCountOf
    have hfe : perms.filter (fun p => p.operationType == "Read-only") = perms :=
      List.filter_eq_self.mpr (fun a ha => by simp [hro a ha])
    rw [hfe]
    simp
  constructor
  · unfold riskTotalScore
    rw [hroB]
    simp only [if_true]
    by_cases hcat : categoriesCountOf perms > 8
    · rw [if_pos hcat, if_pos hcat]
    · rw [if_neg hcat, if_neg hcat]
      norm_num
  · unfold generateRiskAssessment
    rw [if_neg (fun h => hne (List.length_eq_zero.mp h))]

/-- Witness for the amended C1 theorem at the nine-permission
selection. -/
theorem riskAssessment_readOnly_multiplier_position_witness :
    riskTotalScore roSetC1
        = jsRound ((riskScorePreOp roSetC1 : ℚ) * 0.3)
          + (if categoriesCountOf roSetC1 > 8 then 10 else 0) ∧
      (generateRiskAssessment roSetC1).score = min 100 (riskTotalScore roSetC1) :=
  riskAssessment_readOnly_multiplier_position roSetC1 (by decide) (by decide)

/-! ## C6: score cap and classification thresholds -/

/-- Claim C6: for every non-empty selection the reported score is the
accumulated score capped at 100, and the overall risk is High exactly
when the capped score is at least 45 (the 70 branch resolves to the
same High outcome), Medium exactly between 20 and 44, and Low below
20. -/
theorem riskAssessment_classification (perms : List Permission) (hne : perms ≠ []) :
    (generateRiskAssessment perms).score = min 100 (riskTotalScore perms) ∧
      ((generateRiskAssessment perms).overallRisk = "High"
        ↔ 45 ≤ min 100 (riskTotalScore perms)) ∧
      ((generateRiskAssessment perms).overallRisk = "Medium"
        ↔ 20 ≤ min 100 (riskTotalScore perms) ∧ min 100 (riskTotalScore perms) < 45) ∧
      ((generateRiskAssessment perms).overallRisk = "Low"
        ↔ min 100 (riskTotalScore perms) < 20) := by
  have hlen : ¬(perms.length = 0) := fun h => hne (List.length_eq_zero.mp h)
  have hrisk : (generateRiskAssessment perms).overallRisk
      = classifyRisk (min 100 (riskTotalScore perms)) := by
    unfold generateRiskAssessment
    rw [if_neg hlen]
  refine ⟨?_, ?_, ?_, ?_⟩
  · unfold generateRiskAssessment
    rw [if_neg hlen]
  · rw [hrisk]
    unfold classifyRisk
    split_ifs with h1 h2 h3
    · exact iff_of_true rfl (by omega)
    · exact iff_of_true rfl h2
    · exact iff_of_false (by decide) (by omega)
    · exact iff_of_false (by decide) (by omega)
  · rw [hrisk]
    unfold classifyRisk
    split_ifs with h1 h2 h3
    · exact iff_of_false (by decide) (by omega)
    · exact iff_of_false (by decide) (by omega)
    · exact iff_of_true rfl (by omega)
    · exact iff_of_false (by decide) (by omega)
  · rw [hrisk]
    unfold classifyRisk
    split_ifs with h1 h2 h3
    · exact iff_of_false (by decide) (by omega)
    · exact iff_of_false (by decide) (by omega)
    · exact iff_of_false (by decide) (by omega)
    · exact iff_of_true rfl (by omega)

/-- The singleton balance-transfer selection is not read-only. -/
theorem isReadOnlyRoleOf_btoPerms : isReadOnlyRoleOf btoPerms = false := by decide

/-- Pre-operation-type score of the balance-transfer singleton: 25 for
the critical write permission plus 10 for financial data. -/
theorem riskScorePreOp_btoPerms : riskScorePreOp btoPerms = 35 := by
  unfold riskScorePreOp
  rw [show criticalCountOf btoPerms = 1 from by decide,
    show elevatedCountOf btoPerms = 0 from by decide,
    show credentialsCountOf btoPerms = 0 from by decide,
    show financialCountOf btoPerms = 1 from by decide,
    show piiCountOf btoPerms = 0 from by decide,
    show sensitivityMultiplierOf btoPerms = 1 from by
      unfold sensitivityMultiplierOf
      rw [isReadOnlyRoleOf_btoPerms]
      rfl]
  rw [jsRound_eq (((1 : Nat) : ℚ) * 10 * 1) 10 (by norm_num) (by norm_num)]
  norm_num

/-- The balance-transfer singleton is entirely write-bearing. -/
theorem writeFracOf_btoPerms : writeFracOf btoPerms = 1 := by
  unfold writeFracOf
  rw [show writeCountOf btoPerms = 1 from by decide,
    show btoPerms.length = 1 from by decide]
  norm_num

/-- Total score of the balance-transfer singleton: 35 plus the
write-heavy flat 10. -/
theorem riskTotalScore_btoPerms : riskTotalScore btoPerms = 45 := by
  unfold riskTotalScore
  rw [isReadOnlyRoleOf_btoPerms, riskScorePreOp_btoPerms, writeFracOf_btoPerms,
    show categoriesCountOf btoPerms = 1 from by decide]
  norm_num

/-- Witness for C6 at the balance-transfer singleton: its capped score
is 45, on the High threshold. -/
theorem riskAssessment_classification_witness :
    (generateRiskAssessment btoPerms).score = min 100 (riskTotalScore btoPerms) ∧
      (generateRiskAssessment btoPerms).overallRisk = "High" := by
  obtain ⟨hs, hH, -, -⟩ := riskAssessment_classification btoPerms (by decide)
  exact ⟨hs, hH.mpr (by rw [riskTotalScore_btoPerms]; norm_num)⟩

/-! ## C7: the balance-transfer singleton scenario -/

/-- Claim C7: the singleton selection holding balance_transfer_operations
produces a High Critical Operations factor and a Financial Data factor,
warns that it can transfer funds between accounts, scores at least 25,
and is classified High. -/
theorem riskAssessment_balance_transfer_scenario :
    (∃ f ∈ (generateRiskAssessment btoPerms).factors,
        f.name = "Critical Operations" ∧ f.level = "High") ∧
      (∃ f ∈ (generateRiskAssessment btoPerms).factors, f.name = "Financial Data") ∧
      "Can transfer funds between accounts" ∈ (generateRiskAssessment btoPerms).warnings ∧
      25 ≤ (generateRiskAssessment btoPerms).score ∧
      (generateRiskAssessment btoPerms).overallRisk = "High" := by
  have hlen : ¬(btoPerms.length = 0) := by decide
  have hfac : (generateRiskAssessment btoPerms).factors
      = (riskFactorsRaw btoPerms).insertionSort
          (fun a b => riskOrder a.level ≤ riskOrder b.level) := by
    unfold generateRiskAssessment
    rw [if_neg hlen]
  have hmemiff : ∀ f : RiskFactor,
      f ∈ (generateRiskAssessment btoPerms).factors ↔ f ∈ riskFactorsRaw btoPerms := by
    intro f
    rw [hfac]
    exact (List.perm_insertionSort _ _).mem_iff
  have hcounts := And.intro (show criticalCountOf btoPerms = 1 from by decide)
    (And.intro (show elevatedCountOf btoPerms = 0 from by decide)
      (And.intro (show credentialsCountOf btoPerms = 0 from by decide)
        (And.intro (show financialCountOf btoPerms = 1 from by decide)
          (show piiCountOf btoPerms = 0 from by decide))))
  obtain ⟨hcc, hec, hcrc, hfc, hpc⟩ := hcounts
  have hscore : (generateRiskAssessment btoPerms).score = 45 := by
    unfold generateRiskAssessment
    rw [if_neg hlen]
    show min 100 (riskTotalScore btoPerms) = 45
    rw [riskTotalScore_btoPerms]
    norm_num
  have hrisk : (generateRiskAssessment btoPerms).overallRisk = "High" := by
    unfold generateRiskAssessment
    rw [if_neg hlen]
    show classifyRisk (min 100 (riskTotalScore btoPerms)) = "High"
    rw [riskTotalScore_btoPerms]
    decide
  refine ⟨?_, ?_, ?_, by rw [hscore]; norm_num, hrisk⟩
  · have h : ∃ f ∈ riskFactorsRaw btoPerms,
        f.name = "Critical Operations" ∧ f.level = "High" := by
      unfold riskFactorsRaw
      simp only [isReadOnlyRoleOf_btoPerms, hcc, hec, hcrc, hfc, hpc,
        show standardCountOf btoPerms = 0 from by decide,
        show categoriesCountOf btoPerms = 1 from by decide, writeFracOf_btoPerms]
      norm_num
    obtain ⟨f, hf, hname⟩ := h
    exact ⟨f, (hmemiff f).mpr hf, hname⟩
  · have h : ∃ f ∈ riskFactorsRaw btoPerms, f.name = "Financial Data" := by
      unfold riskFactorsRaw
      simp only [isReadOnlyRoleOf_btoPerms, hcc, hec, hcrc, hfc, hpc,
        show standardCountOf btoPerms = 0 from by decide,
        show categoriesCountOf btoPerms = 1 from by decide, writeFracOf_btoPerms]
      norm_num
    obtain ⟨f, hf, hname⟩ := h
    exact ⟨f, (hmemiff f).mpr hf, hname⟩
  · have hwarn : (generateRiskAssessment btoPerms).warnings
        = (riskWarnings btoPerms).take 5 := by
      unfold generateRiskAssessment
      rw [if_neg hlen]
    rw [hwarn]
    decide

/-! ## C8: generateCanDo bullet construction -/

/-- Claim C8 counterexample: three permissions share the Process
transactions category, yet no summarized bullet appears, because two of
them share one description and the source counts distinct descriptions,
not permissions. -/
theorem generateCanDo_shared_description_counterexample :
    (canDoDupPerms.filter
        (fun p => p.taskCategories.contains "Process transactions")).length = 3 ∧
      "Process transactions (3 capabilities)" ∉ generateCanDo canDoDupPerms ∧
      generateCanDo canDoDupPerms = ["dup", "other"] := by
  refine ⟨by decide, by decide, by decide⟩

/-- First-occurrence case-insensitive deduplication yields a list with
pairwise distinct lowercasings, none of them previously seen. -/
theorem dedupCI_go_spec (l : List String) :
    ∀ seen : List String,
      (dedupCaseInsensitive.go seen l).Pairwise (fun a b => lowerStr a ≠ lowerStr b) ∧
        ∀ x ∈ dedupCaseInsensitive.go seen l, ¬(seen.contains (lowerStr x) = true) := by
  induction l with
  | nil => intro seen; simp [dedupCaseInsensitive.go]
  | cons x xs ih =>
    intro seen
    by_cases h : seen.contains (lowerStr x) = true
    · simp only [dedupCaseInsensitive.go, h, if_true]
      exact ih seen
    · simp only [dedupCaseInsensitive.go, h, if_false]
      obtain ⟨hp, hs⟩ := ih (lowerStr x :: seen)
      refine ⟨List.Pairwise.cons ?_ hp, ?_⟩
      · intro y hy he
        exact hs y hy (by simp [List.contains_cons, he])
      · intro y hy
        rcases List.mem_cons.mp hy with he | hm
        · subst he; exact fun hc => h hc
        · exact fun hc => hs y hm (by rw [List.contains_cons, hc]; simp)

/-- Elements already accumulated survive an appending fold. -/
theorem mem_foldl_append {α : Type} (f : α → List String) (l : List α) (acc : List String)
    (x : String) (hx : x ∈ acc) : x ∈ l.foldl (fun a t => a ++ f t) acc := by
  induction l generalizing acc with
  | nil => simpa using hx
  | cons t ts ih => exact ih _ (List.mem_append_left _ hx)

/-- Elements contributed by any member of the fold range appear in an
appending fold. -/
theorem mem_foldl_append_of {α : Type} (f : α → List String) (l : List α) (acc : List String)
    (t0 : α) (x : String) (ht : t0 ∈ l) (hx : x ∈ f t0) :
    x ∈ l.foldl (fun a t => a ++ f t) acc := by
  induction l generalizing acc with
  | nil => cases ht
  | cons t ts ih =>
    rcases List.mem_cons.mp ht with he | hm
    · subst he
      exact mem_foldl_append f ts _ x (List.mem_append_right _ hx)
    · exact ih _ hm

/-- Claim C8 (amended): the empty selection yields the fixed
placeholder; the result always has at most 6 items, no two equal up to
case; a priority category holding more than 2 distinct descriptions
contributes the summarized bullet counting distinct descriptions to the
raw bullet list; and a priority category holding at most 2 distinct
descriptions contributes each of them literally. -/
theorem generateCanDo_properties :
    generateCanDo [] = ["Access basic Dashboard features"] ∧
      (∀ perms : List Permission, (generateCanDo perms).length ≤ 6) ∧
      (∀ perms : List Permission,
        (generateCanDo perms).Pairwise (fun a b => lowerStr a ≠ lowerStr b)) ∧
      (∀ (perms : List Permission) (task : String), task ∈ priorityTasks →
        2 < (bucketOfS (taskGroups perms) task).length →
          (task ++ " (" ++ toString (bucketOfS (taskGroups perms) task).length
            ++ " capabilities)") ∈ canDoListRaw perms) ∧
      (∀ (perms : List Permission) (task d : String), task ∈ priorityTasks →
        (bucketOfS (taskGroups perms) task).length ≤ 2 →
        d ∈ bucketOfS (taskGroups perms) task → d ∈ canDoListRaw perms) := by
  refine ⟨rfl, ?_, ?_, ?_, ?_⟩
  · intro perms
    unfold generateCanDo
    by_cases h : perms.length = 0
    · rw [if_pos h]; simp
    · rw [if_neg h]
      exact List.length_take_le 6 _
  · intro perms
    unfold generateCanDo
    by_cases h : perms.length = 0
    · rw [if_pos h]; simp
    · rw [if_neg h]
      have hp := (dedupCI_go_spec (canDoListRaw perms) []).1
      exact List.Pairwise.sublist (List.take_sublist 6 _) hp
  · intro perms task htask hlen
    unfold canDoListRaw
    apply mem_foldl_append
    apply mem_foldl_append_of _ _ _ task _ htask
    unfold canDoPriorityStep
    rw [if_pos (by omega), if_pos hlen]
    exact List.mem_singleton.mpr rfl
  · intro perms task d htask hle hd
    unfold canDoListRaw
    apply mem_foldl_append
    apply mem_foldl_append_of _ _ _ task _ htask
    unfold canDoPriorityStep
    rw [if_pos (List.length_pos_of_mem hd), if_neg (by omega)]
    rw [List.take_of_length_le hle]
    exact hd

/-- Witness for the amended C8 theorem: a category with three distinct
descriptions contributes its summarized bullet, and a category with two
contributes them literally. -/
theorem generateCanDo_properties_witness :
    ("Process transactions ("
        ++ toString (bucketOfS (taskGroups canDoDistinctPerms) "Process transactions").length
        ++ " capabilities)") ∈ canDoListRaw canDoDistinctPerms ∧
      "dup" ∈ canDoListRaw canDoDupPerms :=
  ⟨generateCanDo_properties.2.2.2.1 canDoDistinctPerms "Process transactions"
      (by decide) (by decide),
    generateCanDo_properties.2.2.2.2 canDoDupPerms "Process transactions" "dup"
      (by decide) (by decide) (by decide)⟩

end UVP
